import Mathlib

/-!
Verification of the result-aggregation and multi-format report-generation
pipeline of the PageSpeed bulk-testing repository.

The JavaScript source is shallowly embedded: JS numbers that can become
NaN are modelled by `JSNum`/`JSInt`, optional/absent fields by `Option`,
thrown `TypeError`s by `Except String`, and the `x || d` falsy-default
idiom by `strOrDefault`.  The pdfkit page-buffer mechanics used by
`addFooter` are modelled by `PDFState` following the documented pdfkit
behaviour: without the `bufferPages` option every `addPage` flushes the
previously buffered pages, and `switchToPage` throws when the requested
page is no longer in the buffer.
-/

namespace PageSpeed

/-- Decidable equality for `Except`, so closed evaluations of the
embedded fallible functions can be settled by `decide`. -/
instance {ε α : Type} [DecidableEq ε] [DecidableEq α] : DecidableEq (Except ε α) :=
  fun x y =>
    match x, y with
    | Except.ok a, Except.ok b =>
      if h : a = b then isTrue (by rw [h])
      else isFalse (by intro hc; cases hc; exact h rfl)
    | Except.error a, Except.error b =>
      if h : a = b then isTrue (by rw [h])
      else isFalse (by intro hc; cases hc; exact h rfl)
    | Except.ok _, Except.error _ => isFalse (by intro hc; cases hc)
    | Except.error _, Except.ok _ => isFalse (by intro hc; cases hc)

/-! ## JS value helpers -/

/-- JS `Math.round`: round half upwards, i.e. `⌊x + 1/2⌋`. -/
def roundJS (q : ℚ) : ℤ := Rat.floor (q + 1/2)

theorem roundJS_eq_intFloor (q : ℚ) : roundJS q = ⌊q + 1/2⌋ := rfl

/-- Evaluate `roundJS` at a concrete point from floor bounds. -/
theorem roundJS_eq {q : ℚ} {z : ℤ} (h1 : (z : ℚ) ≤ q + 1/2) (h2 : q + 1/2 < z + 1) :
    roundJS q = z := by
  rw [roundJS_eq_intFloor, Int.floor_eq_iff]
  · exact ⟨h1, by exact_mod_cast h2⟩

/-- A JS number that may be `NaN` (e.g. `undefined * 100`). -/
inductive JSNum where
  | nan : JSNum
  | num (q : ℚ) : JSNum
deriving DecidableEq, Repr

/-- Result of `Math.round` on a `JSNum` (`Math.round(NaN)` is `NaN`). -/
inductive JSInt where
  | nan : JSInt
  | int (z : ℤ) : JSInt
deriving DecidableEq, Repr

def jsAdd : JSNum → JSNum → JSNum
  | JSNum.num a, JSNum.num b => JSNum.num (a + b)
  | _, _ => JSNum.nan

def jsDivNat : JSNum → Nat → JSNum
  | JSNum.nan, _ => JSNum.nan
  | JSNum.num q, n => JSNum.num (q / (n : ℚ))

def jsRoundI : JSNum → JSInt
  | JSNum.nan => JSInt.nan
  | JSNum.num q => JSInt.int (roundJS q)

/-- `String(x)` for a rounded JS number cell (`String(NaN)` is `"NaN"`). -/
def cellOfJSInt : JSInt → String
  | JSInt.nan => "NaN"
  | JSInt.int z => toString z

/-- JS `x || d` where `x` is an optional string (absent and `""` are falsy). -/
def strOrDefault (o : Option String) (d : String) : String :=
  match o with
  | some s => if s = "" then d else s
  | none => d

/-- JS truthiness of an optional string value. -/
def strTruthy (o : Option String) : Bool :=
  match o with
  | some s => s ≠ ""
  | none => false

/-! ## Data model

One analysis result record per (URL, strategy) pair, as produced by
`runPageSpeedTest` and consumed by the screen/CSV/PDF builders.  Every
nested field that the JS code may find absent is an `Option`. -/

structure CategoryEntry where
  score : Option ℚ := none
deriving DecidableEq, Repr

structure Categories where
  performance : Option CategoryEntry := none
  accessibility : Option CategoryEntry := none
  bestPractices : Option CategoryEntry := none
  seo : Option CategoryEntry := none
deriving DecidableEq, Repr

structure AuditEntry where
  displayValue : Option String := none
  score : Option ℚ := none
deriving DecidableEq, Repr

/-- The seven audits the pipeline reads from `lighthouseResult.audits`. -/
structure Audits where
  firstContentfulPaint : Option AuditEntry := none
  largestContentfulPaint : Option AuditEntry := none
  cumulativeLayoutShift : Option AuditEntry := none
  totalBlockingTime : Option AuditEntry := none
  speedIndex : Option AuditEntry := none
  interactive : Option AuditEntry := none
  maxPotentialFid : Option AuditEntry := none
deriving DecidableEq, Repr

structure LighthouseResult where
  categories : Option Categories := none
  audits : Option Audits := none
deriving DecidableEq, Repr

structure RData where
  lighthouseResult : Option LighthouseResult := none
  analysisUTCTimestamp : Option String := none
deriving DecidableEq, Repr

structure TestRecord where
  url : String
  strategy : Option String := none
  data : Option RData := none
  error : Option String := none
deriving DecidableEq, Repr

/-- `result.data && result.data.lighthouseResult` is truthy. -/
def hasUsableData (r : TestRecord) : Bool :=
  match r.data with
  | some d => d.lighthouseResult.isSome
  | none => false

/-! ## Bulk test orchestrator (pagespeedService.js) -/

/-- Leading-character comparison, `p` against the front of `s`. -/
def startsWithChars : List Char → List Char → Bool
  | [], _ => true
  | _ :: _, [] => false
  | a :: as, b :: bs => a = b && startsWithChars as bs

/-- The regex test `/^https?:\/\//.test(url)`. -/
def hasScheme (url : String) : Bool :=
  startsWithChars "http://".data url.data || startsWithChars "https://".data url.data

/-- URL normalization performed before the request is sent. -/
def normalizeUrl (url : String) : String :=
  if hasScheme url then url else "https://" ++ url

/-- Shape of a non-2xx response body after `JSON.parse` is attempted. -/
inductive ErrBody where
  | jsonMsg (m : String) : ErrBody
  | jsonNoMsg : ErrBody
  | notJson (t : String) : ErrBody
deriving DecidableEq, Repr

/-- Error-message extraction: `errorData.error?.message || "API request failed"`
when the body parses as JSON, otherwise `errorText || "API request failed"`. -/
def errMsgOfBody : ErrBody → String
  | ErrBody.jsonMsg m => if m = "" then "API request failed" else m
  | ErrBody.jsonNoMsg => "API request failed"
  | ErrBody.notJson t => if t = "" then "API request failed" else t

/-- Outcome of the single `fetch` issued for one processed URL: a parsed
2xx JSON body, a non-2xx response with some body, or a thrown network
error.  The oracle abstracts the external PageSpeed API. -/
inductive FetchOutcome where
  | ok (d : RData) : FetchOutcome
  | notOk (body : ErrBody) : FetchOutcome
  | netErr (msg : String) : FetchOutcome
deriving DecidableEq, Repr

/-- The error message the catch-all in `runPageSpeedTest` would see, or
`none` when the fetch succeeds. -/
def fetchFailMsg : FetchOutcome → Option String
  | FetchOutcome.ok _ => none
  | FetchOutcome.notOk b => some (errMsgOfBody b)
  | FetchOutcome.netErr m => some m

/-- `runPageSpeedTest(url, apiKey, strategy)`: normalize the URL, fetch,
and convert any failure into an error-tagged record.  On success the
record field `url` is the processed URL; on failure it is the original input. -/
def runPageSpeedTest (oracle : String → FetchOutcome)
    (url apiKey strategy : String) : TestRecord :=
  match oracle (normalizeUrl url) with
  | FetchOutcome.ok d =>
      { url := normalizeUrl url, strategy := some strategy, data := some d, error := none }
  | FetchOutcome.notOk b =>
      { url := url, strategy := some strategy, data := none,
        error := some (errMsgOfBody b) }
  | FetchOutcome.netErr m =>
      { url := url, strategy := some strategy, data := none, error := some m }

/-- `runPageSpeedTests(urls, apiKey, strategy)`: one request per URL via
`urls.map`, settled together; `Promise.all` preserves submission order. -/
def runPageSpeedTests (oracle : String → FetchOutcome)
    (urls : List String) (apiKey strategy : String) : List TestRecord :=
  urls.map (fun url => runPageSpeedTest oracle url apiKey strategy)

/-! ## CSV report builders (exportService.js and its unnamed variant)

Both builders map every input record to one row object over the same 13
fields; `json2csv` fills fields absent from a row with the empty string.
A row is modelled as a structure with all 13 cells as strings, `""` for
an unset cell.  The builder in `src/app/services/exportService.js`
(`csvRowNamed`) reads `lhr.categories.<cat>.score` without guards and so
throws a `TypeError` when a category object or the `audits` map is
absent, and produces `NaN` when only the `score` value is absent; the
variant builder (`csvRowV2`) guards every access and substitutes
`"N/A"` for any falsy score. -/

def csvFields : List String :=
  ["url", "strategy", "performanceScore", "accessibilityScore",
   "bestPracticesScore", "seoScore", "firstContentfulPaint",
   "largestContentfulPaint", "cumulativeLayoutShift", "totalBlockingTime",
   "speedIndex", "interactive", "testDate"]

structure CsvRow where
  url : String := ""
  strategy : String := ""
  performanceScore : String := ""
  accessibilityScore : String := ""
  bestPracticesScore : String := ""
  seoScore : String := ""
  firstContentfulPaint : String := ""
  largestContentfulPaint : String := ""
  cumulativeLayoutShift : String := ""
  totalBlockingTime : String := ""
  speedIndex : String := ""
  interactive : String := ""
  testDate : String := ""
deriving DecidableEq, Repr

/-- `audits[id]?.displayValue || "N/A"`. -/
def vitalCell (e : Option AuditEntry) : String :=
  match e with
  | some a => strOrDefault a.displayValue "N/A"
  | none => "N/A"

/-- Reading a field of a possibly-undefined JS object: absent → TypeError. -/
def orThrow {α : Type} (o : Option α) (msg : String) : Except String α :=
  match o with
  | some a => Except.ok a
  | none => Except.error msg

/-- `lhr.categories.<cat>.score * 100` in the unguarded builder: a missing
category object throws, a missing score yields `NaN`. -/
def catScoreNum (c : Option CategoryEntry) : Except String JSNum :=
  match c with
  | none => Except.error "TypeError: Cannot read properties of undefined (reading score)"
  | some e =>
    match e.score with
    | none => Except.ok JSNum.nan
    | some q => Except.ok (JSNum.num (q * 100))

/-- The row emitted for a record without usable data: only `url`,
`strategy` (defaulted to `"mobile"`) and `testDate` (current time) set. -/
def fallbackRow (now : String) (r : TestRecord) : CsvRow :=
  { url := r.url, strategy := strOrDefault r.strategy "mobile", testDate := now }

/-- One CSV row as built by `generateCSVReport` in
`src/app/services/exportService.js` (no guards on category access). -/
def csvRowNamed (now : String) (r : TestRecord) : Except String CsvRow :=
  match r.data with
  | none => Except.ok (fallbackRow now r)
  | some d =>
    match d.lighthouseResult with
    | none => Except.ok (fallbackRow now r)
    | some lhr => do
      let cs ← orThrow lhr.categories
        "TypeError: Cannot read properties of undefined (reading performance)"
      let p ← catScoreNum cs.performance
      let a ← catScoreNum cs.accessibility
      let b ← catScoreNum cs.bestPractices
      let s ← catScoreNum cs.seo
      let au ← orThrow lhr.audits
        "TypeError: Cannot read properties of undefined (reading first-contentful-paint)"
      Except.ok
        { url := r.url
          strategy := strOrDefault r.strategy "mobile"
          performanceScore := cellOfJSInt (jsRoundI p)
          accessibilityScore := cellOfJSInt (jsRoundI a)
          bestPracticesScore := cellOfJSInt (jsRoundI b)
          seoScore := cellOfJSInt (jsRoundI s)
          firstContentfulPaint := vitalCell au.firstContentfulPaint
          largestContentfulPaint := vitalCell au.largestContentfulPaint
          cumulativeLayoutShift := vitalCell au.cumulativeLayoutShift
          totalBlockingTime := vitalCell au.totalBlockingTime
          speedIndex := vitalCell au.speedIndex
          interactive := vitalCell au.interactive
          testDate := strOrDefault d.analysisUTCTimestamp now }

/-- Sequential `Array.prototype.map` whose callback may throw: the first
throw aborts the whole map. -/
def mapE {α β : Type} (f : α → Except String β) : List α → Except String (List β)
  | [] => Except.ok []
  | x :: xs =>
    match f x with
    | Except.error e => Except.error e
    | Except.ok y =>
      match mapE f xs with
      | Except.error e => Except.error e
      | Except.ok ys => Except.ok (y :: ys)

/-- `generateCSVReport` from `src/app/services/exportService.js`, up to
row construction (the `json2csv` serialization of the produced rows is
not needed by any claim). -/
def generateCSVReportNamed (now : String) (results : List TestRecord) :
    Except String (List CsvRow) :=
  mapE (csvRowNamed now) results

/-- `categories.<cat>?.score ? Math.round(score*100) : "N/A"` in the
variant builder: the truthiness test sends a missing category, a missing
score, and a score of exactly `0` all to `"N/A"`. -/
def catCellV2 (c : Option CategoryEntry) : String :=
  match c with
  | some e =>
    match e.score with
    | some q => if q = 0 then "N/A" else toString (roundJS (q * 100))
    | none => "N/A"
  | none => "N/A"

/-- One CSV row as built by the variant `generateCSVReport`
(`src/unnamed/part_003`): fully guarded, never throws. -/
def csvRowV2 (now : String) (r : TestRecord) : CsvRow :=
  if strTruthy r.error then fallbackRow now r
  else
    match r.data with
    | none => fallbackRow now r
    | some d =>
      match d.lighthouseResult with
      | none => fallbackRow now r
      | some lhr =>
        let cats := lhr.categories.getD {}
        let au := lhr.audits.getD {}
        { url := r.url
          strategy := strOrDefault r.strategy "mobile"
          performanceScore := catCellV2 cats.performance
          accessibilityScore := catCellV2 cats.accessibility
          bestPracticesScore := catCellV2 cats.bestPractices
          seoScore := catCellV2 cats.seo
          firstContentfulPaint := vitalCell au.firstContentfulPaint
          largestContentfulPaint := vitalCell au.largestContentfulPaint
          cumulativeLayoutShift := vitalCell au.cumulativeLayoutShift
          totalBlockingTime := vitalCell au.totalBlockingTime
          speedIndex := vitalCell au.speedIndex
          interactive := vitalCell au.interactive
          testDate := strOrDefault d.analysisUTCTimestamp now }

/-- The variant `generateCSVReport` maps every record to exactly one row
and never throws while building rows. -/
def generateCSVReportV2 (now : String) (results : List TestRecord) : List CsvRow :=
  results.map (csvRowV2 now)

/-! ## Score classifiers (three call sites) -/

/-- `getColorForScore` in `exportService.js` (0-100 scale). -/
def getColorForScore (score : ℚ) : String :=
  if 90 ≤ score then "#059669"
  else if 50 ≤ score then "#d97706"
  else "#dc2626"

/-- `getScoreColor` in `ResultCard.jsx` (0-100 scale). -/
def getScoreColor (score : ℚ) : String :=
  if 90 ≤ score then "text-emerald-600"
  else if 50 ≤ score then "text-amber-500"
  else "text-rose-500"

/-- `getVitalClass` in `ResultCard.jsx` (0-1 scale, reading
`audits[auditId].score`; an absent audit is grey, an absent score fails
both comparisons and falls through to rose). -/
def getVitalClass (a : Option AuditEntry) : String :=
  match a with
  | none => "text-gray-400"
  | some e =>
    match e.score with
    | some q =>
      if (9 : ℚ)/10 ≤ q then "text-emerald-600"
      else if (1 : ℚ)/2 ≤ q then "text-amber-500"
      else "text-rose-500"
    | none => "text-rose-500"

/-! ## PDF document state (pdfkit page-buffer mechanics)

pdfkit keeps a page buffer.  With the default options (no `bufferPages`)
every `addPage` first flushes all buffered pages, so only the newest
page stays in the buffer; `bufferedPageRange()` reports the buffered
window and `switchToPage(n)` throws when page `n` has been flushed.
The `stamps` field records the footer texts written per page index. -/

structure PDFState where
  pageCount : Nat
  bufferStart : Nat
  bufferLen : Nat
  bufferPages : Bool
  stamps : List (Nat × String) := []
deriving DecidableEq, Repr

/-- A fresh document with its automatic first page. -/
def newDocument (bufferPages : Bool) : PDFState :=
  { pageCount := 1, bufferStart := 0, bufferLen := 1, bufferPages := bufferPages }

/-- `doc.addPage()`: without `bufferPages` the old buffer is flushed first. -/
def addPage (s : PDFState) : PDFState :=
  if s.bufferPages then
    { s with pageCount := s.pageCount + 1, bufferLen := s.bufferLen + 1 }
  else
    { s with pageCount := s.pageCount + 1, bufferStart := s.pageCount, bufferLen := 1 }

def addPages : Nat → PDFState → PDFState
  | 0, s => s
  | n + 1, s => addPages n (addPage s)

/-- `doc.bufferedPageRange().count`. -/
def bufferedPageRangeCount (s : PDFState) : Nat := s.bufferLen

/-- `doc.switchToPage(n)`: throws when page `n` is not in the buffer. -/
def switchToPage (s : PDFState) (n : Nat) : Except String PDFState :=
  if s.bufferStart ≤ n ∧ n < s.bufferStart + s.bufferLen then Except.ok s
  else Except.error "switchToPage out of bounds"

/-- Write the centered page-number line on the current page. -/
def stampFooter (s : PDFState) (i total : Nat) : PDFState :=
  { s with stamps := s.stamps ++ [(i, "Page " ++ toString (i + 1) ++ " of " ++ toString total)] }

def addFooterAux (total : Nat) : List Nat → PDFState → Except String PDFState
  | [], s => Except.ok s
  | i :: rest, s => do
    let s1 ← switchToPage s i
    addFooterAux total rest (stampFooter s1 i total)

/-- `addFooter(doc)`: stamp `Page i of N` on pages `0 .. count-1` where
`count = bufferedPageRange().count`. -/
def addFooter (s : PDFState) : Except String PDFState :=
  let count := bufferedPageRangeCount s
  addFooterAux count (List.range count) s

/-! ## PDF summary section (`addSummarySection`) -/

structure SummaryTotals where
  tp : JSNum := JSNum.num 0
  ta : JSNum := JSNum.num 0
  tb : JSNum := JSNum.num 0
  ts : JSNum := JSNum.num 0
  validCount : Nat := 0
deriving DecidableEq, Repr

/-- One iteration of the `results.forEach` accumulation: a record with
`data && data.lighthouseResult` adds each `categories.<cat>.score * 100`
(unguarded access) and bumps the valid-result count. -/
def summaryStep (acc : SummaryTotals) (r : TestRecord) : Except String SummaryTotals :=
  match r.data with
  | none => Except.ok acc
  | some d =>
    match d.lighthouseResult with
    | none => Except.ok acc
    | some lhr => do
      let cs ← orThrow lhr.categories
        "TypeError: Cannot read properties of undefined (reading performance)"
      let p ← catScoreNum cs.performance
      let a ← catScoreNum cs.accessibility
      let b ← catScoreNum cs.bestPractices
      let s ← catScoreNum cs.seo
      Except.ok
        { tp := jsAdd acc.tp p, ta := jsAdd acc.ta a
          tb := jsAdd acc.tb b, ts := jsAdd acc.ts s
          validCount := acc.validCount + 1 }

/-- Sequential `forEach` with a callback that may throw. -/
def foldE {σ α : Type} (f : σ → α → Except String σ) (init : σ) :
    List α → Except String σ
  | [] => Except.ok init
  | x :: xs =>
    match f init x with
    | Except.error e => Except.error e
    | Except.ok s => foldE f s xs

/-- The four average-score boxes drawn in the summary. -/
structure AvgBoxes where
  performance : JSInt
  accessibility : JSInt
  bestPractices : JSInt
  seo : JSInt
deriving DecidableEq, Repr

/-- `addSummarySection(doc, results)` reduced to its score computation:
accumulate, then draw the four boxes only when `validResultsCount > 0`,
each box showing `Math.round(total / validResultsCount)`. -/
def addSummarySection (results : List TestRecord) : Except String (Option AvgBoxes) := do
  let t ← foldE summaryStep {} results
  if t.validCount > 0 then
    Except.ok (some
      { performance := jsRoundI (jsDivNat t.tp t.validCount)
        accessibility := jsRoundI (jsDivNat t.ta t.validCount)
        bestPractices := jsRoundI (jsDivNat t.tb t.validCount)
        seo := jsRoundI (jsDivNat t.ts t.validCount) })
  else
    Except.ok none

/-! ## PDF detailed section score boxes (`addDetailedResults`) -/

/-- The four rounded scores drawn in the detail block of a record, `none` for
a record without usable data (the "No valid data available" line). -/
def pdfDetailScores (r : TestRecord) :
    Except String (Option (JSInt × JSInt × JSInt × JSInt)) :=
  match r.data with
  | none => Except.ok none
  | some d =>
    match d.lighthouseResult with
    | none => Except.ok none
    | some lhr => do
      let cs ← orThrow lhr.categories
        "TypeError: Cannot read properties of undefined (reading performance)"
      let p ← catScoreNum cs.performance
      let a ← catScoreNum cs.accessibility
      let b ← catScoreNum cs.bestPractices
      let s ← catScoreNum cs.seo
      Except.ok (some (jsRoundI p, jsRoundI a, jsRoundI b, jsRoundI s))

/-! ## PDF assembly (`generatePDFReport` in exportService.js) -/

/-- Number of distinct URLs, i.e. `Object.keys(resultsByUrl).length`. -/
def distinctUrlCount (results : List TestRecord) : Nat :=
  ((results.map TestRecord.url).dedup).length

/-- Pages present when `addFooter` runs: the automatic first page, the
unconditional `doc.addPage()` opening the detailed section, and one
further `doc.addPage()` per distinct URL after the first.  The document
is created without the `bufferPages` option. -/
def contentState (results : List TestRecord) : PDFState :=
  addPages (distinctUrlCount results - 1) (addPage (newDocument false))

/-- The synchronous assembly run inside the promise executor: header,
summary, detailed results, then the footer pass.  Any throw aborts it. -/
def assemblePDFNamed (results : List TestRecord) (reportName : String) :
    Except String PDFState := do
  let _ ← addSummarySection results
  let _ ← mapE pdfDetailScores results
  addFooter (contentState results)

/-- The byte payload the promise resolves with: only produced from a
fully assembled document. -/
def renderBuffer (s : PDFState) : List (Nat × String) := s.stamps

/-- `generatePDFReport(results, reportName)`: a throw anywhere in the
executor rejects the promise; `resolve` runs only after `doc.end()`. -/
def generatePDFReportNamed (results : List TestRecord) (reportName : String) :
    Except String (List (Nat × String)) :=
  Except.map renderBuffer (assemblePDFNamed results reportName)

/-! ## Export endpoint (`POST` in the export route) -/

/-- The `results` value found in the parsed request body. -/
inductive ResultsField where
  | arr (l : List TestRecord) : ResultsField
  | notArr : ResultsField
deriving DecidableEq

/-- A request body: either `request.json()` threw, or it produced an
object with optional `results` and `reportName` members. -/
inductive ReqBody where
  | badJson : ReqBody
  | json (results : Option ResultsField) (reportName : Option String) : ReqBody
deriving DecidableEq

inductive RespBody where
  | jsonErr (msg : String) : RespBody
  | csvPayload (rows : List CsvRow) : RespBody
  | pdfPayload (buf : List (Nat × String)) : RespBody
deriving DecidableEq

structure HttpResponse where
  status : Nat
  body : RespBody
deriving DecidableEq

/-- The export route handler, parameterized by the two generators so
that the validation path is manifestly independent of them.  Mirrors the
checks in order: JSON parse, `results` validation, then format dispatch
with per-format try/catch. -/
def exportPOST (csvGen : List TestRecord → Except String (List CsvRow))
    (pdfGen : List TestRecord → String → Except String (List (Nat × String)))
    (format : String) (body : ReqBody) : HttpResponse :=
  match body with
  | ReqBody.badJson => ⟨400, RespBody.jsonErr "Invalid JSON in request body"⟩
  | ReqBody.json results reportName =>
    match results with
    | none => ⟨400, RespBody.jsonErr "Invalid or empty results data"⟩
    | some ResultsField.notArr => ⟨400, RespBody.jsonErr "Invalid or empty results data"⟩
    | some (ResultsField.arr rs) =>
      if rs.length = 0 then ⟨400, RespBody.jsonErr "Invalid or empty results data"⟩
      else if format = "csv" then
        match csvGen rs with
        | Except.ok rows => ⟨200, RespBody.csvPayload rows⟩
        | Except.error e => ⟨500, RespBody.jsonErr ("CSV generation failed: " ++ e)⟩
      else if format = "pdf" then
        match pdfGen rs (reportName.getD "PageSpeed Report") with
        | Except.ok buf => ⟨200, RespBody.pdfPayload buf⟩
        | Except.error e => ⟨500, RespBody.jsonErr ("PDF generation failed: " ++ e)⟩
      else ⟨400, RespBody.jsonErr "Unsupported export format. Supported formats: pdf, csv"⟩

/-! ## Spec-side summary (for comparison with `addSummarySection`)

`specSummaryBoxes` follows the wording of the claim: the boxes appear when at
least one record has usable data, and each category is averaged only
over the records in which that category score is present. -/

/-- All fractional scores present for one category across the records. -/
def presentFracs (results : List TestRecord)
    (proj : Categories → Option CategoryEntry) : List ℚ :=
  results.filterMap (fun r =>
    (((r.data.bind RData.lighthouseResult).bind
        LighthouseResult.categories).bind proj).bind CategoryEntry.score)

/-- Average of one category over the records where it is present,
as a rounded percentage. -/
def specCatAvg (results : List TestRecord)
    (proj : Categories → Option CategoryEntry) : ℤ :=
  roundJS (100 * (((presentFracs results proj).sum) / ((presentFracs results proj).length : ℚ)))

/-- The summary boxes as the claim describes them. -/
def specSummaryBoxes (results : List TestRecord) : Option AvgBoxes :=
  if results.any hasUsableData then
    some
      { performance := JSInt.int (specCatAvg results Categories.performance)
        accessibility := JSInt.int (specCatAvg results Categories.accessibility)
        bestPractices := JSInt.int (specCatAvg results Categories.bestPractices)
        seo := JSInt.int (specCatAvg results Categories.seo) }
  else none

/-! ## Code-side summary in pure form (for the amended claim) -/

/-- Every record with usable data carries all four category scores. -/
def catPresent (c : Option CategoryEntry) : Bool :=
  match c with
  | some e => e.score.isSome
  | none => false

def allCategoryScoresPresent (r : TestRecord) : Bool :=
  match r.data with
  | none => true
  | some d =>
    match d.lighthouseResult with
    | none => true
    | some lhr =>
      match lhr.categories with
      | none => false
      | some cs =>
        catPresent cs.performance && catPresent cs.accessibility &&
        catPresent cs.bestPractices && catPresent cs.seo

/-- The records counted by `validResultsCount`. -/
def validRecords (results : List TestRecord) : List TestRecord :=
  results.filter hasUsableData

def validCount (results : List TestRecord) : Nat := (validRecords results).length

/-- The fractional score of a category inside a record (0 for junk cases that
cannot occur for well-formed valid records). -/
def catFrac (r : TestRecord) (proj : Categories → Option CategoryEntry) : ℚ :=
  (((((r.data.bind RData.lighthouseResult).bind
      LighthouseResult.categories).bind proj).bind CategoryEntry.score)).getD 0

/-- What the accumulator in the code totals per category: the sum of
`score * 100` over every record with usable data. -/
def categoryTotal (results : List TestRecord)
    (proj : Categories → Option CategoryEntry) : ℚ :=
  ((validRecords results).map (fun r => catFrac r proj * 100)).sum

/-! ## Concrete fixtures -/

/-- A fixed "current time" stamp used where the JS code calls
`new Date().toISOString()`. -/
def now0 : String := "2024-01-01T00:00:00.000Z"

def fullCats (q : ℚ) : Categories :=
  { performance := some { score := some q }
    accessibility := some { score := some q }
    bestPractices := some { score := some q }
    seo := some { score := some q } }

/-- A successful record with the given categories, empty audits map and
a fixed timestamp. -/
def mkRec (u : String) (cats : Categories) : TestRecord :=
  { url := u, strategy := some "mobile"
    data := some
      { lighthouseResult := some { categories := some cats, audits := some {} }
        analysisUTCTimestamp := some "2024-01-01" }
    error := none }

/-- A record whose performance score was measured as exactly 0. -/
def cexZeroRecord : TestRecord :=
  mkRec "https://zero.example" { fullCats (9/10) with performance := some { score := some 0 } }

/-- A record whose performance category object is absent. -/
def cexMissingCatRecord : TestRecord :=
  mkRec "https://missing-cat.example" { fullCats (9/10) with performance := none }

/-- A record whose performance category is present but has no score. -/
def cexMissingScoreRecord : TestRecord :=
  mkRec "https://missing-score.example"
    { fullCats (9/10) with performance := some { score := none } }

/-- A fully populated record built from arbitrary components: URL,
strategy, timestamp, the four fractional scores, an audits map and an
optional error string. -/
def mkFullRecord (u strat ts : String) (p a b s : ℚ) (au : Audits)
    (err : Option String) : TestRecord :=
  { url := u, strategy := some strat
    data := some
      { lighthouseResult := some
          { categories := some
              { performance := some { score := some p }
                accessibility := some { score := some a }
                bestPractices := some { score := some b }
                seo := some { score := some s } }
            audits := some au }
        analysisUTCTimestamp := some ts }
    error := err }

/-- Thirty successful records over thirty distinct URLs: enough to
overflow one PDF page. -/
def records30 : List TestRecord :=
  (List.range 30).map (fun i => mkRec ("https://site" ++ toString i ++ ".example") (fullCats (9/10)))

/-- Two records with usable data, the second missing its performance
category: the input separating the claimed per-category averaging from
the behaviour of the code. -/
def cexC5Input : List TestRecord :=
  [mkRec "https://a.example" (fullCats (4/5)),
   mkRec "https://b.example" { fullCats (9/10) with performance := none }]

/-- A record with only `error` set, as the orchestrator produces on a
failed test. -/
def errorOnlyRecord : TestRecord :=
  { url := "https://down.example", strategy := some "mobile"
    data := none, error := some "API request failed" }

/-- Two well-formed records for the amended summary claim. -/
def wfC5Input : List TestRecord :=
  [mkRec "https://a.example" (fullCats (4/5)),
   mkRec "https://b.example" (fullCats (9/10))]

/-! ## Claim theorems -/

/-- **C1.** The claim says `generateCSVReport` never throws when a
category score is missing, emits the literal `"N/A"` in that column, and
emits `0` for a score measured as exactly `0`.  The code violates it:
the truthiness test of the variant builder sends a measured `0` to `"N/A"`,
and the builder in `exportService.js` throws a `TypeError` on a missing
category object and emits `"NaN"` (not `"N/A"`) on a missing score;
only its measured-zero cell is the claimed `"0"`. -/
theorem claim_c1_csv_missing_vs_zero_scores :
    (generateCSVReportV2 now0 [cexZeroRecord]).map CsvRow.performanceScore = ["N/A"]
    ∧ generateCSVReportNamed now0 [cexMissingCatRecord] =
        Except.error "TypeError: Cannot read properties of undefined (reading score)"
    ∧ Except.map (fun rows => rows.map CsvRow.performanceScore)
        (generateCSVReportNamed now0 [cexMissingScoreRecord]) = Except.ok ["NaN"]
    ∧ Except.map (fun rows => rows.map CsvRow.performanceScore)
        (generateCSVReportNamed now0 [cexZeroRecord]) = Except.ok ["0"]
    ∧ (generateCSVReportV2 now0 [cexMissingCatRecord]).map CsvRow.performanceScore = ["N/A"]
    ∧ (generateCSVReportV2 now0 [cexMissingScoreRecord]).map CsvRow.performanceScore = ["N/A"] := by
  refine ⟨rfl, rfl, rfl, ?_, rfl, rfl⟩
  have h : roundJS ((0 : ℚ) * 100) = 0 := roundJS_eq (by norm_num) (by norm_num)
  calc Except.map (fun rows => rows.map CsvRow.performanceScore)
        (generateCSVReportNamed now0 [cexZeroRecord])
      = Except.ok [toString (roundJS ((0 : ℚ) * 100))] := rfl
    _ = Except.ok ["0"] := by rw [h]; rfl

/-- A successful `mapE` produces exactly one output per input. -/
theorem mapE_ok_length {α β : Type} (f : α → Except String β) :
    ∀ (l : List α) (res : List β), mapE f l = Except.ok res → res.length = l.length := by
  intro l
  induction l with
  | nil =>
    intro res h
    unfold mapE at h
    cases h
    rfl
  | cons x xs ih =>
    intro res h
    unfold mapE at h
    cases hfx : f x with
    | error e => rw [hfx] at h; cases h
    | ok y =>
      rw [hfx] at h
      cases hrest : mapE f xs with
      | error e => rw [hrest] at h; cases h
      | ok ys =>
        rw [hrest] at h
        cases h
        simp [List.length_cons, ih ys hrest]

/-- **C2.** Both CSV builders emit exactly one row per record (the named
builder whenever it succeeds, the variant builder always), and a record
with only `error` set, or with neither `error` nor usable data, yields a
row whose `url`, `strategy` and `testDate` cells are non-empty and whose
ten metric cells are all empty. -/
theorem claim_c2_csv_one_row_per_record :
    (∀ (now : String) (rs : List TestRecord),
      (generateCSVReportV2 now rs).length = rs.length)
    ∧ (∀ (now : String) (rs : List TestRecord) (rows : List CsvRow),
        generateCSVReportNamed now rs = Except.ok rows → rows.length = rs.length)
    ∧ (∀ (now : String) (r : TestRecord), now ≠ "" → r.url ≠ "" →
        hasUsableData r = false →
        csvRowNamed now r = Except.ok (fallbackRow now r)
        ∧ csvRowV2 now r = fallbackRow now r
        ∧ (fallbackRow now r).url ≠ ""
        ∧ (fallbackRow now r).strategy ≠ ""
        ∧ (fallbackRow now r).testDate ≠ ""
        ∧ (fallbackRow now r).performanceScore = ""
        ∧ (fallbackRow now r).accessibilityScore = ""
        ∧ (fallbackRow now r).bestPracticesScore = ""
        ∧ (fallbackRow now r).seoScore = ""
        ∧ (fallbackRow now r).firstContentfulPaint = ""
        ∧ (fallbackRow now r).largestContentfulPaint = ""
        ∧ (fallbackRow now r).cumulativeLayoutShift = ""
        ∧ (fallbackRow now r).totalBlockingTime = ""
        ∧ (fallbackRow now r).speedIndex = ""
        ∧ (fallbackRow now r).interactive = "") := by
  refine ⟨?_, ?_, ?_⟩
  · intro now rs
    simp [generateCSVReportV2]
  · intro now rs rows h
    exact mapE_ok_length (csvRowNamed now) rs rows h
  · intro now r hnow hurl husable
    have hfallback : csvRowNamed now r = Except.ok (fallbackRow now r)
        ∧ csvRowV2 now r = fallbackRow now r := by
      obtain ⟨u, st, dOpt, e⟩ := r
      cases dOpt with
      | none =>
        constructor
        · rfl
        · show csvRowV2 now ⟨u, st, none, e⟩ = fallbackRow now ⟨u, st, none, e⟩
          unfold csvRowV2
          cases h : strTruthy e <;> simp
      | some d =>
        obtain ⟨lrOpt, ts⟩ := d
        cases lrOpt with
        | none =>
          constructor
          · rfl
          · show csvRowV2 now ⟨u, st, some ⟨none, ts⟩, e⟩
                = fallbackRow now ⟨u, st, some ⟨none, ts⟩, e⟩
            unfold csvRowV2
            cases h : strTruthy e <;> simp
        | some lhr =>
          unfold hasUsableData at husable
          simp at husable
    refine ⟨hfallback.1, hfallback.2, hurl, ?_, hnow,
      rfl, rfl, rfl, rfl, rfl, rfl, rfl, rfl, rfl, rfl⟩
    show strOrDefault r.strategy "mobile" ≠ ""
    unfold strOrDefault
    cases r.strategy with
    | none => decide
    | some s =>
      by_cases hs : s = ""
      · simp [hs]
      · simp [hs]

/-- **C2 witness.** The theorem applied at a concrete error-only record
and a concrete one-record list. -/
theorem claim_c2_csv_one_row_per_record_witness :
    csvRowNamed now0 errorOnlyRecord = Except.ok (fallbackRow now0 errorOnlyRecord)
    ∧ (generateCSVReportV2 now0 [cexZeroRecord]).length = 1 := by
  constructor
  · exact (claim_c2_csv_one_row_per_record.2.2 now0 errorOnlyRecord
      (by decide) (by decide) (by decide)).1
  · exact claim_c2_csv_one_row_per_record.1 now0 [cexZeroRecord]

/-- A concrete fetch oracle: one URL succeeds, everything else fails
with a network error. -/
def oracle0 : String → FetchOutcome := fun u =>
  if u = "https://a.example" then
    FetchOutcome.ok { lighthouseResult := some { categories := some (fullCats (9/10)), audits := some {} },
                      analysisUTCTimestamp := some "2024-01-01" }
  else FetchOutcome.netErr "fetch failed"

/-- **C3.** The orchestrator returns one record per URL in submission
order (`results[i]` is the test of `urls[i]`), each record depends only
on the outcome for its own URL, and a per-URL failure of any kind becomes an
error-tagged record with no data field; the batch itself is a total
function and so never throws. -/
theorem claim_c3_orchestrator_order_and_error_records
    (oracle : String → FetchOutcome) (urls : List String) (apiKey strategy : String) :
    (runPageSpeedTests oracle urls apiKey strategy).length = urls.length
    ∧ (∀ i : Nat, (runPageSpeedTests oracle urls apiKey strategy)[i]? =
        (urls[i]?).map (fun url => runPageSpeedTest oracle url apiKey strategy))
    ∧ (∀ url m, fetchFailMsg (oracle (normalizeUrl url)) = some m →
        runPageSpeedTest oracle url apiKey strategy =
          { url := url, strategy := some strategy, data := none, error := some m }) := by
  refine ⟨?_, ?_, ?_⟩
  · simp [runPageSpeedTests]
  · intro i
    simp [runPageSpeedTests, List.getElem?_map]
  · intro url m hfail
    unfold runPageSpeedTest
    cases houtcome : oracle (normalizeUrl url) with
    | ok d => rw [houtcome] at hfail; cases hfail
    | notOk b =>
      rw [houtcome] at hfail
      unfold fetchFailMsg at hfail
      cases hfail
      rfl
    | netErr msg =>
      rw [houtcome] at hfail
      unfold fetchFailMsg at hfail
      cases hfail
      rfl

/-- **C3 witness.** Instantiated at a two-URL batch where the second
URL has a failing fetch. -/
theorem claim_c3_orchestrator_order_and_error_records_witness :
    (runPageSpeedTests oracle0 ["a.example", "b.example"] "key" "mobile").length = 2
    ∧ runPageSpeedTest oracle0 "b.example" "key" "mobile" =
        { url := "b.example", strategy := some "mobile", data := none,
          error := some "fetch failed" } := by
  constructor
  · exact (claim_c3_orchestrator_order_and_error_records oracle0
      ["a.example", "b.example"] "key" "mobile").1
  · exact (claim_c3_orchestrator_order_and_error_records oracle0
      ["a.example", "b.example"] "key" "mobile").2.2 "b.example" "fetch failed" (by rfl)

/-- **C10.** For an input URL without a scheme, a successful test stores
the normalized https-prefixed address in the record field `url`, while a
failed test stores the original input unchanged: the stored `url`
depends on the outcome, not only on the input. -/
theorem claim_c10_record_url_depends_on_outcome
    (oracle : String → FetchOutcome) (url apiKey strategy : String)
    (hscheme : hasScheme url = false) :
    (∀ d, oracle ("https://" ++ url) = FetchOutcome.ok d →
      runPageSpeedTest oracle url apiKey strategy =
        { url := "https://" ++ url, strategy := some strategy, data := some d, error := none })
    ∧ (∀ m, fetchFailMsg (oracle ("https://" ++ url)) = some m →
      runPageSpeedTest oracle url apiKey strategy =
        { url := url, strategy := some strategy, data := none, error := some m }) := by
  have hnorm : normalizeUrl url = "https://" ++ url := by
    unfold normalizeUrl
    rw [hscheme]
    simp
  constructor
  · intro d hok
    unfold runPageSpeedTest
    rw [hnorm, hok]
  · intro m hfail
    unfold runPageSpeedTest
    rw [hnorm]
    cases houtcome : oracle ("https://" ++ url) with
    | ok d => rw [houtcome] at hfail; cases hfail
    | notOk b =>
      rw [houtcome] at hfail
      unfold fetchFailMsg at hfail
      cases hfail
      rfl
    | netErr msg =>
      rw [houtcome] at hfail
      unfold fetchFailMsg at hfail
      cases hfail
      rfl

/-- **C10 witness.** Instantiated at the scheme-less URL `b.example`
(failing) and `a.example` (succeeding) under the concrete oracle. -/
theorem claim_c10_record_url_depends_on_outcome_witness :
    runPageSpeedTest oracle0 "a.example" "key" "mobile" =
      { url := "https://a.example", strategy := some "mobile",
        data := some { lighthouseResult := some { categories := some (fullCats (9/10)), audits := some {} },
                       analysisUTCTimestamp := some "2024-01-01" },
        error := none }
    ∧ runPageSpeedTest oracle0 "b.example" "key" "mobile" =
      { url := "b.example", strategy := some "mobile", data := none,
        error := some "fetch failed" } := by
  constructor
  · exact (claim_c10_record_url_depends_on_outcome oracle0 "a.example" "key" "mobile"
      (by decide)).1 _ (by rfl)
  · exact (claim_c10_record_url_depends_on_outcome oracle0 "b.example" "key" "mobile"
      (by decide)).2 "fetch failed" (by rfl)

/-- **C6.** The score classifier is total with inclusive upper-band
boundaries, and uniform across the three call sites: on the 0-100 scale
(`getColorForScore` in the PDF builder, `getScoreColor` on screen) a
score ≥ 90 is good/green, 50 ≤ score < 90 is needs-improvement/amber,
score < 50 is poor/red; `getVitalClass` applies the same bands at
0.9/0.5 on the 0-1 scale and agrees with the 0-100 classifiers under
scaling; `classify(90)` is good, `classify(89)` and `classify(50)`
needs-improvement, `classify(49)` poor. -/
theorem claim_c6_classifier_bands_uniform :
    (∀ s : ℚ,
      ((getColorForScore s = "#059669") ↔ 90 ≤ s)
      ∧ ((getColorForScore s = "#d97706") ↔ (50 ≤ s ∧ s < 90))
      ∧ ((getColorForScore s = "#dc2626") ↔ s < 50)
      ∧ ((getScoreColor s = "text-emerald-600") ↔ 90 ≤ s)
      ∧ ((getScoreColor s = "text-amber-500") ↔ (50 ≤ s ∧ s < 90))
      ∧ ((getScoreColor s = "text-rose-500") ↔ s < 50))
    ∧ (∀ (dv : Option String) (q : ℚ),
      ((getVitalClass (some { displayValue := dv, score := some q }) = "text-emerald-600") ↔ (9 : ℚ)/10 ≤ q)
      ∧ ((getVitalClass (some { displayValue := dv, score := some q }) = "text-amber-500") ↔ ((1 : ℚ)/2 ≤ q ∧ q < 9/10))
      ∧ ((getVitalClass (some { displayValue := dv, score := some q }) = "text-rose-500") ↔ q < 1/2)
      ∧ getVitalClass (some { displayValue := dv, score := some q }) = getScoreColor (100 * q))
    ∧ getColorForScore 90 = "#059669"
    ∧ getColorForScore 89 = "#d97706"
    ∧ getColorForScore 50 = "#d97706"
    ∧ getColorForScore 49 = "#dc2626" := by
  refine ⟨?_, ?_, ?_, ?_, ?_, ?_⟩
  · intro s
    unfold getColorForScore getScoreColor
    split_ifs with h1 h2 <;>
      refine ⟨⟨?_, ?_⟩, ⟨?_, ?_⟩, ⟨?_, ?_⟩, ⟨?_, ?_⟩, ⟨?_, ?_⟩, ⟨?_, ?_⟩⟩ <;>
      intro h <;> first
        | assumption
        | (exfalso; revert h; decide)
        | constructor <;> linarith
        | linarith
        | (exfalso; rcases h with ⟨ha, hb⟩; linarith)
        | (exfalso; linarith)
  · intro dv q
    by_cases hA : (9 : ℚ)/10 ≤ q
    · have hL : getVitalClass (some { displayValue := dv, score := some q }) = "text-emerald-600" := by
        unfold getVitalClass
        show (if (9 : ℚ)/10 ≤ q then "text-emerald-600"
          else if (1 : ℚ)/2 ≤ q then "text-amber-500" else "text-rose-500") = _
        rw [if_pos hA]
      have hR : getScoreColor (100 * q) = "text-emerald-600" := by
        unfold getScoreColor
        rw [if_pos (by linarith : (90 : ℚ) ≤ 100 * q)]
      rw [hL, hR]
      refine ⟨⟨fun _ => hA, fun _ => rfl⟩, ?_, ?_, rfl⟩
      · constructor
        · intro h; exact absurd h (by decide)
        · intro h; exfalso; linarith [h.2]
      · constructor
        · intro h; exact absurd h (by decide)
        · intro h; exfalso; linarith
    · by_cases hB : (1 : ℚ)/2 ≤ q
      · have hL : getVitalClass (some { displayValue := dv, score := some q }) = "text-amber-500" := by
          unfold getVitalClass
          show (if (9 : ℚ)/10 ≤ q then "text-emerald-600"
            else if (1 : ℚ)/2 ≤ q then "text-amber-500" else "text-rose-500") = _
          rw [if_neg hA, if_pos hB]
        have hR : getScoreColor (100 * q) = "text-amber-500" := by
          unfold getScoreColor
          rw [if_neg (by intro h; exact hA (by linarith)), if_pos (by linarith : (50 : ℚ) ≤ 100 * q)]
        rw [hL, hR]
        refine ⟨?_, ⟨fun _ => ⟨hB, by linarith [lt_of_not_le hA]⟩, fun _ => rfl⟩, ?_, rfl⟩
        · constructor
          · intro h; exact absurd h (by decide)
          · intro h; exact absurd h (by linarith [lt_of_not_le hA])
        · constructor
          · intro h; exact absurd h (by decide)
          · intro h; exfalso; linarith
      · have hL : getVitalClass (some { displayValue := dv, score := some q }) = "text-rose-500" := by
          unfold getVitalClass
          show (if (9 : ℚ)/10 ≤ q then "text-emerald-600"
            else if (1 : ℚ)/2 ≤ q then "text-amber-500" else "text-rose-500") = _
          rw [if_neg hA, if_neg hB]
        have hR : getScoreColor (100 * q) = "text-rose-500" := by
          unfold getScoreColor
          rw [if_neg (by intro h; exact hA (by linarith)),
            if_neg (by intro h; exact hB (by linarith))]
        rw [hL, hR]
        refine ⟨?_, ?_, ⟨fun _ => by linarith [lt_of_not_le hB], fun _ => rfl⟩, rfl⟩
        · constructor
          · intro h; exact absurd h (by decide)
          · intro h; exact absurd h (by linarith [lt_of_not_le hB])
        · constructor
          · intro h; exact absurd h (by decide)
          · intro h; exact absurd h.1 (by linarith [lt_of_not_le hB])
  · unfold getColorForScore
    rw [if_pos (by norm_num)]
  · unfold getColorForScore
    rw [if_neg (by norm_num), if_pos (by norm_num)]
  · unfold getColorForScore
    rw [if_neg (by norm_num), if_pos (by norm_num)]
  · unfold getColorForScore
    rw [if_neg (by norm_num), if_neg (by norm_num)]

/-- **C7.** For every record with a full `rawAnalysis` (all four
category scores present), the four score cells emitted by the CSV
builder and the four score-box values drawn by the PDF detailed section
equal `Math.round(fraction * 100)` of the respective category. -/
theorem claim_c7_scores_equal_round_fraction_times_100
    (now u strat ts : String) (p a b s : ℚ) (au : Audits) (err : Option String) :
    Except.map (fun row => (row.performanceScore, row.accessibilityScore,
        row.bestPracticesScore, row.seoScore))
      (csvRowNamed now (mkFullRecord u strat ts p a b s au err))
      = Except.ok (toString (roundJS (p * 100)), toString (roundJS (a * 100)),
          toString (roundJS (b * 100)), toString (roundJS (s * 100)))
    ∧ pdfDetailScores (mkFullRecord u strat ts p a b s au err)
      = Except.ok (some (JSInt.int (roundJS (p * 100)), JSInt.int (roundJS (a * 100)),
          JSInt.int (roundJS (b * 100)), JSInt.int (roundJS (s * 100)))) := by
  constructor
  · rfl
  · rfl

/-- **C4.** The claim says every page of a multi-page report is stamped
"Page i of N" with N the total page count.  The code violates it: the
document is created without the pdfkit `bufferPages` option, so when
`addFooter` runs only the last page is still buffered
(`bufferedPageRange()` is `{start: N-1, count: 1}`) and in its loop the very
first `switchToPage(0)` throws, rejecting the whole export; no page is
ever stamped.  For the thirty-record input the document has 31 pages
when the footer pass starts.  In contrast, the same footer pass over a
31-page document whose pages are all buffered (the intended
`bufferPages: true` configuration) stamps every page `i` with
"Page i+1 of 31". -/
theorem claim_c4_footer_switchToPage_throws_on_multipage :
    (contentState records30).pageCount = 31
    ∧ generatePDFReportNamed records30 "Monthly Report" =
        Except.error "switchToPage out of bounds"
    ∧ addFooter (addPages 30 (newDocument true)) =
        Except.ok { pageCount := 31, bufferStart := 0, bufferLen := 31, bufferPages := true,
                    stamps := (List.range 31).map
                      (fun i => (i, "Page " ++ toString (i + 1) ++ " of 31")) } := by
  refine ⟨by decide, by decide, by decide⟩

/-- **C8.** If document assembly throws at any point inside the promise
executor, `generatePDFReport` rejects with that same error (the Promise
constructor catches synchronous executor throws); it resolves only after
`doc.end()`, so any resolved buffer is the render of a fully assembled
document, never a truncated one. -/
theorem claim_c8_pdf_rejects_on_assembly_throw
    (results : List TestRecord) (reportName : String) :
    (∀ e, assemblePDFNamed results reportName = Except.error e →
      generatePDFReportNamed results reportName = Except.error e)
    ∧ (∀ buf, generatePDFReportNamed results reportName = Except.ok buf →
      ∃ s, assemblePDFNamed results reportName = Except.ok s ∧ buf = renderBuffer s) := by
  constructor
  · intro e h
    unfold generatePDFReportNamed
    rw [h]
    rfl
  · intro buf h
    unfold generatePDFReportNamed at h
    cases hassoc : assemblePDFNamed results reportName with
    | error e =>
      rw [hassoc] at h
      cases h
    | ok s =>
      rw [hassoc] at h
      refine ⟨s, rfl, ?_⟩
      cases h
      rfl

/-- **C8 witness.** Applied at a concrete input whose assembly throws in
the footer pass: the resulting promise rejects with that error. -/
theorem claim_c8_pdf_rejects_on_assembly_throw_witness :
    generatePDFReportNamed [] "Report" = Except.error "switchToPage out of bounds" := by
  exact (claim_c8_pdf_rejects_on_assembly_throw [] "Report").1
    "switchToPage out of bounds" (by decide)

/-- Strings with different first characters are distinct, even after an
arbitrary suffix is appended to one of them. -/
theorem string_ne_of_head_ne (a : Char) (as : List Char) (b : Char) (bs : List Char)
    (e : String) (hab : a ≠ b) :
    String.mk (a :: as) ≠ String.mk (b :: bs) ++ e := by
  intro h
  obtain ⟨ed⟩ := e
  rw [show String.mk (b :: bs) ++ String.mk ed = String.mk ((b :: bs) ++ ed) from rfl] at h
  exact hab (by cases h; rfl)

/-- **C9.** The export endpoint rejects a missing, non-array or empty
`results` value, and any `format` other than csv/pdf, with HTTP 400 and
a message distinct from the 500-status generation-failure messages — and
it does so before any generation work begins: the responses are
identical under arbitrary generator functions. -/
theorem claim_c9_export_endpoint_validation :
    (∀ csvGen pdfGen format rn,
      exportPOST csvGen pdfGen format ReqBody.badJson =
        ⟨400, RespBody.jsonErr "Invalid JSON in request body"⟩
      ∧ exportPOST csvGen pdfGen format (ReqBody.json none rn) =
        ⟨400, RespBody.jsonErr "Invalid or empty results data"⟩
      ∧ exportPOST csvGen pdfGen format (ReqBody.json (some ResultsField.notArr) rn) =
        ⟨400, RespBody.jsonErr "Invalid or empty results data"⟩
      ∧ exportPOST csvGen pdfGen format (ReqBody.json (some (ResultsField.arr [])) rn) =
        ⟨400, RespBody.jsonErr "Invalid or empty results data"⟩)
    ∧ (∀ csvGen pdfGen format rs rn, rs ≠ [] → format ≠ "csv" → format ≠ "pdf" →
      exportPOST csvGen pdfGen format (ReqBody.json (some (ResultsField.arr rs)) rn) =
        ⟨400, RespBody.jsonErr "Unsupported export format. Supported formats: pdf, csv"⟩)
    ∧ (∀ e : String,
      "Invalid or empty results data" ≠ "CSV generation failed: " ++ e
      ∧ "Invalid or empty results data" ≠ "PDF generation failed: " ++ e
      ∧ "Unsupported export format. Supported formats: pdf, csv" ≠ "CSV generation failed: " ++ e
      ∧ "Unsupported export format. Supported formats: pdf, csv" ≠ "PDF generation failed: " ++ e
      ∧ "Invalid JSON in request body" ≠ "CSV generation failed: " ++ e
      ∧ "Invalid JSON in request body" ≠ "PDF generation failed: " ++ e) := by
  refine ⟨?_, ?_, ?_⟩
  · intro csvGen pdfGen format rn
    exact ⟨rfl, rfl, rfl, rfl⟩
  · intro csvGen pdfGen format rs rn hne hcsv hpdf
    simp only [exportPOST]
    rw [if_neg (by simpa using hne), if_neg hcsv, if_neg hpdf]
  · intro e
    exact ⟨string_ne_of_head_ne _ _ _ _ _ (by decide),
      string_ne_of_head_ne _ _ _ _ _ (by decide),
      string_ne_of_head_ne _ _ _ _ _ (by decide),
      string_ne_of_head_ne _ _ _ _ _ (by decide),
      string_ne_of_head_ne _ _ _ _ _ (by decide),
      string_ne_of_head_ne _ _ _ _ _ (by decide)⟩

/-- **C9 witness.** Instantiated with two different generator pairs at
an empty `results` array and at an unsupported format. -/
theorem claim_c9_export_endpoint_validation_witness :
    exportPOST (fun rs => generateCSVReportNamed now0 rs)
        (fun rs nm => generatePDFReportNamed rs nm) "csv"
        (ReqBody.json (some (ResultsField.arr [])) none) =
      ⟨400, RespBody.jsonErr "Invalid or empty results data"⟩
    ∧ exportPOST (fun _ => Except.error "x") (fun _ _ => Except.error "y") "xml"
        (ReqBody.json (some (ResultsField.arr [errorOnlyRecord])) none) =
      ⟨400, RespBody.jsonErr "Unsupported export format. Supported formats: pdf, csv"⟩
    ∧ "Invalid or empty results data" ≠ "CSV generation failed: " ++ "boom" := by
  refine ⟨?_, ?_, ?_⟩
  · exact (claim_c9_export_endpoint_validation.1
      (fun rs => generateCSVReportNamed now0 rs)
      (fun rs nm => generatePDFReportNamed rs nm) "csv" none).2.2.2
  · exact claim_c9_export_endpoint_validation.2.1
      (fun _ => Except.error "x") (fun _ _ => Except.error "y") "xml"
      [errorOnlyRecord] none (by decide) (by decide) (by decide)
  · exact (claim_c9_export_endpoint_validation.2.2 "boom").1

/-- Shorthand for a summary accumulator with all-numeric totals. -/
def mkTotals (p a b s : ℚ) (c : Nat) : SummaryTotals :=
  { tp := JSNum.num p, ta := JSNum.num a, tb := JSNum.num b, ts := JSNum.num s, validCount := c }

/-- The summary accumulation in pure form: over records that all carry
their four category scores, the fold succeeds and totals
`score * 100` per category over the records with usable data. -/
theorem foldE_summaryStep (rs : List TestRecord)
    (h : rs.all allCategoryScoresPresent = true) :
    ∀ (p a b s : ℚ) (c : Nat),
      foldE summaryStep (mkTotals p a b s c) rs
        = Except.ok (mkTotals
            (p + categoryTotal rs Categories.performance)
            (a + categoryTotal rs Categories.accessibility)
            (b + categoryTotal rs Categories.bestPractices)
            (s + categoryTotal rs Categories.seo)
            (c + validCount rs)) := by
  induction rs with
  | nil =>
    intro p a b s c
    simp [foldE, categoryTotal, validRecords, validCount, mkTotals]
  | cons r rest ih =>
    intro p a b s c
    rw [List.all_cons, Bool.and_eq_true] at h
    obtain ⟨h1, h2⟩ := h
    obtain ⟨u, st, dOpt, e⟩ := r
    cases dOpt with
    | none =>
      have hstep : summaryStep (mkTotals p a b s c) ⟨u, st, none, e⟩
          = Except.ok (mkTotals p a b s c) := rfl
      unfold foldE
      rw [hstep]
      show foldE summaryStep (mkTotals p a b s c) rest = _
      rw [ih h2 p a b s c]
      have hskip : ∀ proj, categoryTotal (⟨u, st, none, e⟩ :: rest) proj
          = categoryTotal rest proj := by
        intro proj
        simp [categoryTotal, validRecords, List.filter, hasUsableData]
      have hskipc : validCount (⟨u, st, none, e⟩ :: rest) = validCount rest := by
        simp [validCount, validRecords, List.filter, hasUsableData]
      rw [hskip, hskip, hskip, hskip, hskipc]
    | some d =>
      obtain ⟨lrOpt, ts2⟩ := d
      cases lrOpt with
      | none =>
        have hstep : summaryStep (mkTotals p a b s c) ⟨u, st, some ⟨none, ts2⟩, e⟩
            = Except.ok (mkTotals p a b s c) := rfl
        unfold foldE
        rw [hstep]
        show foldE summaryStep (mkTotals p a b s c) rest = _
        rw [ih h2 p a b s c]
        have hskip : ∀ proj, categoryTotal (⟨u, st, some ⟨none, ts2⟩, e⟩ :: rest) proj
            = categoryTotal rest proj := by
          intro proj
          simp [categoryTotal, validRecords, List.filter, hasUsableData]
        have hskipc : validCount (⟨u, st, some ⟨none, ts2⟩, e⟩ :: rest) = validCount rest := by
          simp [validCount, validRecords, List.filter, hasUsableData]
        rw [hskip, hskip, hskip, hskip, hskipc]
      | some lhr =>
        unfold allCategoryScoresPresent at h1
        simp only at h1
        cases hcs : lhr.categories with
        | none => rw [hcs] at h1; simp at h1
        | some cs =>
          rw [hcs] at h1
          simp only [Bool.and_eq_true] at h1
          obtain ⟨⟨⟨hp1, ha1⟩, hb1⟩, hs1⟩ := h1
          cases hp : cs.performance with
          | none => rw [hp] at hp1; simp [catPresent] at hp1
          | some pe =>
          cases hps : pe.score with
          | none => rw [hp] at hp1; simp [catPresent, hps] at hp1
          | some pq =>
          cases ha : cs.accessibility with
          | none => rw [ha] at ha1; simp [catPresent] at ha1
          | some ae =>
          cases has : ae.score with
          | none => rw [ha] at ha1; simp [catPresent, has] at ha1
          | some aq =>
          cases hb : cs.bestPractices with
          | none => rw [hb] at hb1; simp [catPresent] at hb1
          | some be =>
          cases hbs : be.score with
          | none => rw [hb] at hb1; simp [catPresent, hbs] at hb1
          | some bq =>
          cases hs : cs.seo with
          | none => rw [hs] at hs1; simp [catPresent] at hs1
          | some se =>
          cases hss : se.score with
          | none => rw [hs] at hs1; simp [catPresent, hss] at hs1
          | some sq =>
          have hstep : summaryStep (mkTotals p a b s c) ⟨u, st, some ⟨some lhr, ts2⟩, e⟩
              = Except.ok (mkTotals (p + pq * 100) (a + aq * 100) (b + bq * 100)
                  (s + sq * 100) (c + 1)) := by
            simp [summaryStep, orThrow, hcs, hp, hps, ha, has, hb, hbs, hs, hss,
              catScoreNum, jsAdd, mkTotals, Bind.bind, Except.bind]
          unfold foldE
          rw [hstep]
          show foldE summaryStep
            (mkTotals (p + pq * 100) (a + aq * 100) (b + bq * 100) (s + sq * 100) (c + 1)) rest = _
          rw [ih h2 (p + pq * 100) (a + aq * 100) (b + bq * 100) (s + sq * 100) (c + 1)]
          have hkeep : ∀ proj qv, proj cs = some { score := some qv } →
              categoryTotal (⟨u, st, some ⟨some lhr, ts2⟩, e⟩ :: rest) proj
              = qv * 100 + categoryTotal rest proj := by
            intro proj qv hproj
            simp [categoryTotal, validRecords, List.filter, hasUsableData,
              catFrac, hcs, hproj]
          have hkeepc : validCount (⟨u, st, some ⟨some lhr, ts2⟩, e⟩ :: rest)
              = validCount rest + 1 := by
            simp [validCount, validRecords, List.filter, hasUsableData]
          rw [hkeep Categories.performance pq (by rw [hp]; obtain ⟨psc⟩ := pe; cases hps; rfl),
            hkeep Categories.accessibility aq (by rw [ha]; obtain ⟨asc⟩ := ae; cases has; rfl),
            hkeep Categories.bestPractices bq (by rw [hb]; obtain ⟨bsc⟩ := be; cases hbs; rfl),
            hkeep Categories.seo sq (by rw [hs]; obtain ⟨ssc⟩ := se; cases hss; rfl), hkeepc]
          simp only [Except.ok.injEq, mkTotals, SummaryTotals.mk.injEq, JSNum.num.injEq]
          refine ⟨?_, ?_, ?_, ?_, ?_⟩ <;> first | ring | omega

/-- **C5 (amended).** The four average-score boxes are rendered iff at
least one record has usable data; when every usable record carries all
four category scores, each box shows `Math.round` of the mean of
`score * 100` over ALL usable records — not over the records where that
category is present, which is what distinguishes this from the original
claim (a usable record missing a category makes the computation throw
instead of being skipped; see the counterexample). -/
theorem claim_c5_summary_boxes_amended (rs : List TestRecord)
    (h : rs.all allCategoryScoresPresent = true) :
    addSummarySection rs = Except.ok
      (if validCount rs = 0 then none
       else some
        { performance := JSInt.int (roundJS (categoryTotal rs Categories.performance / (validCount rs : ℚ)))
          accessibility := JSInt.int (roundJS (categoryTotal rs Categories.accessibility / (validCount rs : ℚ)))
          bestPractices := JSInt.int (roundJS (categoryTotal rs Categories.bestPractices / (validCount rs : ℚ)))
          seo := JSInt.int (roundJS (categoryTotal rs Categories.seo / (validCount rs : ℚ))) }) := by
  unfold addSummarySection
  have hinit : ({} : SummaryTotals) = mkTotals 0 0 0 0 0 := rfl
  rw [hinit, foldE_summaryStep rs h 0 0 0 0 0]
  show (if (mkTotals (0 + categoryTotal rs Categories.performance)
      (0 + categoryTotal rs Categories.accessibility)
      (0 + categoryTotal rs Categories.bestPractices)
      (0 + categoryTotal rs Categories.seo) (0 + validCount rs)).validCount > 0
    then _ else _) = _
  simp only [mkTotals, zero_add, Nat.zero_add]
  by_cases hv : validCount rs = 0
  · rw [hv]
    simp
  · rw [if_pos (Nat.pos_of_ne_zero hv), if_neg hv]
    simp [jsDivNat, jsRoundI]

/-- **C5 amended witness.** The amended statement applied to two
well-formed records. -/
theorem claim_c5_summary_boxes_amended_witness :
    addSummarySection wfC5Input = Except.ok
      (if validCount wfC5Input = 0 then none
       else some
        { performance := JSInt.int (roundJS (categoryTotal wfC5Input Categories.performance / (validCount wfC5Input : ℚ)))
          accessibility := JSInt.int (roundJS (categoryTotal wfC5Input Categories.accessibility / (validCount wfC5Input : ℚ)))
          bestPractices := JSInt.int (roundJS (categoryTotal wfC5Input Categories.bestPractices / (validCount wfC5Input : ℚ)))
          seo := JSInt.int (roundJS (categoryTotal wfC5Input Categories.seo / (validCount wfC5Input : ℚ))) }) :=
  claim_c5_summary_boxes_amended wfC5Input (by decide)

/-- **C5 (counterexample).** The claim says each category is averaged
only over the records in which that category score is present.  On two
usable records where the second lacks its performance category, that
reading would render boxes (80, 85, 85, 85); the code instead throws a
`TypeError` while accumulating, so the summary (and the whole PDF
export) fails. -/
theorem claim_c5_summary_boxes_counterexample :
    addSummarySection cexC5Input =
      Except.error "TypeError: Cannot read properties of undefined (reading score)"
    ∧ specSummaryBoxes cexC5Input = some
        { performance := JSInt.int 80, accessibility := JSInt.int 85,
          bestPractices := JSInt.int 85, seo := JSInt.int 85 }
    ∧ addSummarySection cexC5Input ≠ Except.ok (specSummaryBoxes cexC5Input) := by
  have h1 : addSummarySection cexC5Input =
      Except.error "TypeError: Cannot read properties of undefined (reading score)" := by
    decide
  have hperf : specCatAvg cexC5Input Categories.performance = 80 := by
    have hl : presentFracs cexC5Input Categories.performance = [4/5] := rfl
    unfold specCatAvg
    rw [hl]
    simp only [List.sum_cons, List.sum_nil, List.length_cons, List.length_nil]
    apply roundJS_eq <;> norm_num
  have havg2 : ∀ proj, presentFracs cexC5Input proj = [4/5, 9/10] →
      specCatAvg cexC5Input proj = 85 := by
    intro proj hl
    unfold specCatAvg
    rw [hl]
    simp only [List.sum_cons, List.sum_nil, List.length_cons, List.length_nil]
    apply roundJS_eq <;> norm_num
  have hacc := havg2 Categories.accessibility rfl
  have hbest := havg2 Categories.bestPractices rfl
  have hseo := havg2 Categories.seo rfl
  have h2 : specSummaryBoxes cexC5Input = some
      { performance := JSInt.int 80, accessibility := JSInt.int 85,
        bestPractices := JSInt.int 85, seo := JSInt.int 85 } := by
    unfold specSummaryBoxes
    rw [if_pos (by decide), hperf, hacc, hbest, hseo]
  refine ⟨h1, h2, ?_⟩
  rw [h1]
  exact fun hc => Except.noConfusion hc

end PageSpeed
